import Mathlib

/-!
Shallow embedding of `scripts/query-bigquery-emulator.py`.

The script is a diagnostic console: it connects to a local BigQuery
emulator, lists tables, runs three fixed diagnostic queries and then
hosts an interactive read-query-print loop.  All external effects
(queries, table listing, metadata fetches, connecting) are modelled by
an explicit `Client` record of oracles returning `Except String _`
(an `Except.error e` models the Python call raising an exception with
message `e`).  Every `print` call and every query execution attempt is
recorded as an event in an output trace, so that the theorems can speak
about what is printed, in which order, and which queries are attempted.
-/

namespace Slatr

/-- A query result row: an ordered mapping from column name to
printable value, as produced by the client library. -/
structure Row where
  cols : List (String × String)
deriving DecidableEq

/-- Table metadata as used by `list_tables`: `table_ref.num_rows` and
`len(table_ref.schema)`. -/
structure TableMeta where
  numRows : Nat
  schemaLen : Nat
deriving DecidableEq

/-- Observable events of a run: printed lines, query execution
attempts, the tabular output pieces of `run_custom_query`, error
markers (the Python `print` of an error message after a caught
exception) and interactive prompts. -/
inductive Ev where
  | msg (s : String)
  | queryExec (sql : String)
  | header (cols : List String)
  | sep
  | rowOut (vals : List String)
  | errMarker (e : String)
  | prompt
deriving DecidableEq

/-- The environment the script talks to: outcome of
`client.list_tables(dataset_id)`, of `client.get_table(...)` per table
path, and of `client.query(sql).result()` per SQL text. -/
structure Client where
  listTablesRes : Except String (List String)
  getTable : String → Except String TableMeta
  query : String → Except String (List Row)

/-- The string `"-" * 60` used as a separator line. -/
def dash60 : String := "".pushn (Char.ofNat 45) 60

/-- The string `"=" * 60` used as a banner line. -/
def eq60 : String := "".pushn (Char.ofNat 61) 60

/-- Python `row[k]` on the modelled row (lookup of a column by name;
missing keys are modelled by the empty value, which the claims never
exercise). -/
def rowGet (r : Row) (k : String) : String :=
  ((r.cols.find? (fun p => p.1 == k)).map Prod.snd).getD ""

/-- Python `v or "N/A"`: substitute `"N/A"` for a falsy (empty)
value. -/
def orNA (s : String) : String := if s = "" then "N/A" else s

/-- The hardcoded dataset identifier `"test-project.music_metadata"`. -/
def datasetId : String := "test-project.music_metadata"

/-- The two lines printed by `list_tables` when the listing raises. -/
def listErrLines (e : String) : List Ev :=
  [Ev.errMarker e,
   Ev.msg "   Make sure the emulator is running and tests have been executed"]

/-- The body of the `for table in tables` loop of `list_tables`: print
the table id, then fetch and print its metadata; the first metadata
fetch that raises aborts the whole loop (the `try` wraps the entire
loop), returning the exception message. -/
def listTablesLoop (c : Client) : List String → List Ev × Option String
  | [] => ([], none)
  | t :: ts =>
    match c.getTable (datasetId ++ "." ++ t) with
    | Except.error e => ([Ev.msg ("   " ++ t)], some e)
    | Except.ok m =>
      let rest := listTablesLoop c ts
      ([Ev.msg ("   " ++ t),
        Ev.msg ("      Rows: " ++ toString m.numRows),
        Ev.msg ("      Schema: " ++ toString m.schemaLen ++ " fields"),
        Ev.msg ""] ++ rest.1, rest.2)

/-- `list_tables(client)`: prints a header, iterates over the tables of
the hardcoded dataset printing each table id and its metadata; any
exception in the `try` block is caught, an error is printed and `False`
is returned; otherwise `True` is returned. -/
def list_tables (c : Client) : List Ev × Bool :=
  let hdr := [Ev.msg "📋 Available tables:", Ev.msg dash60]
  match c.listTablesRes with
  | Except.error e => (hdr ++ listErrLines e, false)
  | Except.ok ts =>
    match listTablesLoop c ts with
    | (evs, some e) => (hdr ++ evs ++ listErrLines e, false)
    | (evs, none) => (hdr ++ evs, true)

/-- The first hardcoded diagnostic query of `query_firebase_model`:
total row count of the fixed fully-qualified table. -/
def countQuery : String :=
  "\n        SELECT COUNT(*) as count \n        FROM `test-project.music_metadata.release_notifications`\n    "

/-- The second hardcoded diagnostic query: distinct nested-field names,
ordered, limited to 20. -/
def fieldNamesQuery : String :=
  "\n        SELECT DISTINCT field.name as field_name\n        FROM `test-project.music_metadata.release_notifications`,\n        UNNEST(fields) AS field\n        ORDER BY field_name\n        LIMIT 20\n    "

/-- The third hardcoded diagnostic query: a flattened sample of 5 rows
with synthesized columns extracting named sub-fields from the nested
repeated `fields` structure. -/
def metadataQuery : String :=
  "\n        SELECT \n          (SELECT value FROM UNNEST(fields) WHERE name = \x27MessageId\x27) as message_id,\n          (SELECT value FROM UNNEST(fields) WHERE name = \x27ISRC\x27) as isrc,\n          (SELECT value FROM UNNEST(fields) WHERE name LIKE \x27%TitleText%\x27 LIMIT 1) as title,\n          (SELECT value FROM UNNEST(fields) WHERE name = \x27DisplayArtistName\x27) as artist,\n          (SELECT value FROM UNNEST(fields) WHERE name = \x27GenreText\x27) as genre\n        FROM `test-project.music_metadata.release_notifications`\n        LIMIT 5\n    "

/-- `query_firebase_model(client)`: issues the three hardcoded queries.
A failure of the first (row count) query executes `return`, ending the
function; failures of the second and third queries only print an error
and fall through to the next statement. -/
def query_firebase_model (c : Client) : List Ev :=
  [Ev.msg "\n🔍 Querying Firebase model data:", Ev.msg dash60]
  ++ Ev.queryExec countQuery ::
  match c.query countQuery with
  | Except.error e => [Ev.errMarker e]
  | Except.ok rows =>
    (rows.map fun row => Ev.msg ("   Total rows: " ++ rowGet row "count"))
    ++ [Ev.msg "\n   Field names (first 20):"]
    ++ Ev.queryExec fieldNamesQuery ::
    (match c.query fieldNamesQuery with
     | Except.error e => [Ev.errMarker e]
     | Except.ok rows2 =>
       rows2.map fun row => Ev.msg ("     - " ++ rowGet row "field_name"))
    ++ [Ev.msg "\n   🎵 Music releases:"]
    ++ Ev.queryExec metadataQuery ::
    (match c.query metadataQuery with
     | Except.error e => [Ev.errMarker e]
     | Except.ok rows3 =>
       rows3.flatMap fun row =>
         [Ev.msg "",
          Ev.msg ("     Message ID: " ++ orNA (rowGet row "message_id")),
          Ev.msg ("     ISRC: " ++ orNA (rowGet row "isrc")),
          Ev.msg ("     Title: " ++ orNA (rowGet row "title")),
          Ev.msg ("     Artist: " ++ orNA (rowGet row "artist")),
          Ev.msg ("     Genre: " ++ orNA (rowGet row "genre"))])

/-- The row event printed for one result row in `run_custom_query`:
the row's stringified values. -/
def rowEv (r : Row) : Ev := Ev.rowOut (r.cols.map Prod.snd)

/-- The `for i, row in enumerate(results)` loop of `run_custom_query`,
starting at index `i`: at index 0 the header (column names of the first
row) and a separator are printed; each row is printed; after printing
the row at index 9 the loop breaks. -/
def printRows : Nat → List Row → List Ev
  | _, [] => []
  | i, r :: rs =>
    (if i = 0 then [Ev.header (r.cols.map Prod.fst), Ev.sep] else [])
    ++ rowEv r ::
    (if 9 ≤ i then [] else printRows (i + 1) rs)

/-- The four lines `run_custom_query` prints before executing the
query. -/
def customPreamble (sql : String) : List Ev :=
  [Ev.msg "\n🔍 Custom query:", Ev.msg dash60, Ev.msg ("SQL: " ++ sql), Ev.msg ""]

/-- `run_custom_query(client, sql)`: prints a preamble, attempts the
query; on success prints the rows via `printRows` (header once,
truncated after 10 rows); on failure prints the error marker. -/
def run_custom_query (oracle : String → Except String (List Row)) (sql : String) : List Ev :=
  customPreamble sql
  ++ Ev.queryExec sql ::
  match oracle sql with
  | Except.error e => [Ev.errMarker e]
  | Except.ok rows => printRows 0 rows

/-- One event delivered to an `input("\nSQL> ")` call of the
interactive loop: a line of text, a `KeyboardInterrupt`, or an
`EOFError`. -/
inductive LoopInput where
  | line (s : String)
  | interrupt
  | eof
deriving DecidableEq

/-- Python `s.strip()`: remove leading and trailing whitespace
(written over the character list so that it is fully executable). -/
def pyStrip (s : String) : String :=
  String.mk (((s.data.dropWhile Char.isWhitespace).reverse.dropWhile Char.isWhitespace).reverse)

/-- Python `s.lower()`: lowercase every character. -/
def pyLower (s : String) : String :=
  String.mk (s.data.map Char.toLower)

/-- The quit test `query.lower() in [...]` on the stripped input. -/
def isQuitToken (q : String) : Bool :=
  pyLower q == "quit" || pyLower q == "exit" || pyLower q == "q"

/-- The interactive `while True` loop of `main`: each iteration prints
a prompt and consumes one input event; quit tokens, end-of-input and
interrupts break out of the loop; empty (stripped) lines continue; any
other line is dispatched to `run_custom_query`. -/
def loop (c : Client) : List LoopInput → List Ev
  | [] => []
  | LoopInput.interrupt :: _ => [Ev.prompt, Ev.msg "\n\nExiting..."]
  | LoopInput.eof :: _ => [Ev.prompt]
  | LoopInput.line s :: rest =>
    let q := pyStrip s
    if isQuitToken q then [Ev.prompt]
    else if q == "" then Ev.prompt :: loop c rest
    else Ev.prompt :: (run_custom_query c.query q ++ loop c rest)

/-- The lines printed by `main` before attempting the connection. -/
def mainHeader : List Ev :=
  [Ev.msg "🎵 BigQuery Emulator Query Tool", Ev.msg eq60, Ev.msg ""]

/-- The lines printed by `main` after a successful connection. -/
def connOkEvs : List Ev :=
  [Ev.msg "✅ Connected to BigQuery emulator at http://localhost:9050", Ev.msg ""]

/-- The lines printed by `main` when `create_client()` raises, before
`sys.exit(1)`. -/
def connFailEvs (e : String) : List Ev :=
  [Ev.msg ("❌ Failed to connect to emulator: " ++ e), Ev.msg "",
   Ev.msg "Make sure:",
   Ev.msg "  1. Emulator is running: ./scripts/load-ddex-to-bigquery-local.sh skip-tests",
   Ev.msg "  2. Port 9050 is accessible"]

/-- The interactive-mode banner printed by `main` before the loop. -/
def interactiveBanner : List Ev :=
  [Ev.msg ("\n" ++ eq60), Ev.msg "💡 Interactive query mode",
   Ev.msg "   Enter SQL queries or \x27quit\x27 to exit", Ev.msg eq60]

/-- One run's external circumstances: the outcome of `create_client()`
and the sequence of interactive input events. -/
structure World where
  connect : Except String Client
  inputs : List LoopInput

/-- `main()`: the full run, returning the output trace and the process
exit status (`sys.exit(1)` on connection or listing failure, `0` on
normal termination of the loop). -/
def mainRun (w : World) : List Ev × Nat :=
  match w.connect with
  | Except.error e => (mainHeader ++ connFailEvs e, 1)
  | Except.ok c =>
    let lt := list_tables c
    if lt.2 then
      (mainHeader ++ connOkEvs ++ lt.1 ++ query_firebase_model c
        ++ interactiveBanner ++ loop c w.inputs, 0)
    else
      (mainHeader ++ connOkEvs ++ lt.1, 1)

/-- Recognizer for query-execution events. -/
def Ev.isQueryExec : Ev → Bool
  | Ev.queryExec _ => true
  | _ => false

/-- Recognizer for header events. -/
def Ev.isHeader : Ev → Bool
  | Ev.header _ => true
  | _ => false

/-- Recognizer for data-row events. -/
def Ev.isRowOut : Ev → Bool
  | Ev.rowOut _ => true
  | _ => false

/-- Recognizer for separator events. -/
def Ev.isSep : Ev → Bool
  | Ev.sep => true
  | _ => false

/-- Recognizer for prompt events. -/
def Ev.isPrompt : Ev → Bool
  | Ev.prompt => true
  | _ => false

/-- The SQL texts of the query executions attempted in a trace, in
order. -/
def queriesOf (evs : List Ev) : List String :=
  evs.filterMap fun e =>
    match e with
    | Ev.queryExec s => some s
    | _ => none

/-- A concrete client on which every external call succeeds (with an
empty dataset and empty results). -/
def cAllOk : Client :=
  { listTablesRes := Except.ok [],
    getTable := fun _ => Except.ok ⟨0, 0⟩,
    query := fun _ => Except.ok [] }

/-- A concrete client on which every external call raises. -/
def cAllFail : Client :=
  { listTablesRes := Except.error "no dataset",
    getTable := fun _ => Except.error "no table",
    query := fun _ => Except.error "boom" }

/-- A concrete client whose listing succeeds (empty dataset) but whose
every query raises. -/
def cQFail : Client :=
  { listTablesRes := Except.ok [],
    getTable := fun _ => Except.ok ⟨0, 0⟩,
    query := fun _ => Except.error "bad sql" }

/-- A concrete client whose count query succeeds but whose other
queries raise. -/
def cCountOk : Client :=
  { listTablesRes := Except.ok [],
    getTable := fun _ => Except.ok ⟨0, 0⟩,
    query := fun s => if s = countQuery then Except.ok [] else Except.error "later fail" }

@[simp] theorem queriesOf_nil : queriesOf [] = [] := rfl

@[simp] theorem queriesOf_cons_msg (s : String) (l : List Ev) :
    queriesOf (Ev.msg s :: l) = queriesOf l := rfl

@[simp] theorem queriesOf_cons_exec (s : String) (l : List Ev) :
    queriesOf (Ev.queryExec s :: l) = s :: queriesOf l := rfl

@[simp] theorem queriesOf_cons_header (cs : List String) (l : List Ev) :
    queriesOf (Ev.header cs :: l) = queriesOf l := rfl

@[simp] theorem queriesOf_cons_sep (l : List Ev) :
    queriesOf (Ev.sep :: l) = queriesOf l := rfl

@[simp] theorem queriesOf_cons_rowOut (vs : List String) (l : List Ev) :
    queriesOf (Ev.rowOut vs :: l) = queriesOf l := rfl

@[simp] theorem queriesOf_cons_err (e : String) (l : List Ev) :
    queriesOf (Ev.errMarker e :: l) = queriesOf l := rfl

@[simp] theorem queriesOf_cons_prompt (l : List Ev) :
    queriesOf (Ev.prompt :: l) = queriesOf l := rfl

@[simp] theorem queriesOf_append (a b : List Ev) :
    queriesOf (a ++ b) = queriesOf a ++ queriesOf b := by
  simp [queriesOf, List.filterMap_append]

@[simp] theorem queriesOf_map_msg {α : Type} (f : α → String) (l : List α) :
    queriesOf (l.map fun x => Ev.msg (f x)) = [] := by
  induction l with
  | nil => rfl
  | cons x xs ih => simpa using ih

@[simp] theorem queriesOf_flatMap_msgs {α : Type} (g : α → List Ev)
    (hg : ∀ x, queriesOf (g x) = []) (l : List α) :
    queriesOf (l.flatMap g) = [] := by
  induction l with
  | nil => rfl
  | cons x xs ih => simp [List.flatMap_cons, hg, ih]

/-- The queries attempted by `query_firebase_model` are governed by the
first query's outcome alone: an error of the first query leaves only it
attempted; its success makes all three attempted. -/
theorem qfm_queries (c : Client) :
    queriesOf (query_firebase_model c) =
      match c.query countQuery with
      | Except.error _ => [countQuery]
      | Except.ok _ => [countQuery, fieldNamesQuery, metadataQuery] := by
  cases h1 : c.query countQuery with
  | error e => simp [query_firebase_model, h1]
  | ok rows =>
    cases h2 : c.query fieldNamesQuery with
    | error e2 =>
      cases h3 : c.query metadataQuery with
      | error e3 => simp [query_firebase_model, h1, h2, h3]
      | ok r3 => simp [query_firebase_model, h1, h2, h3]
    | ok r2 =>
      cases h3 : c.query metadataQuery with
      | error e3 => simp [query_firebase_model, h1, h2, h3]
      | ok r3 => simp [query_firebase_model, h1, h2, h3]

/-- The table-listing loop emits no query-execution events. -/
theorem queriesOf_listTablesLoop (c : Client) (ts : List String) :
    queriesOf (listTablesLoop c ts).1 = [] := by
  induction ts with
  | nil => rfl
  | cons t ts ih =>
    cases h : c.getTable (datasetId ++ "." ++ t) with
    | error e => simp [listTablesLoop, h]
    | ok m => simp [listTablesLoop, h, ih]

/-- `list_tables` emits no query-execution events. -/
theorem queriesOf_list_tables (c : Client) : queriesOf (list_tables c).1 = [] := by
  cases h : c.listTablesRes with
  | error e => simp [list_tables, h, listErrLines]
  | ok ts =>
    have hl := queriesOf_listTablesLoop c ts
    cases h2 : listTablesLoop c ts with
    | mk evs err =>
      rw [h2] at hl
      cases err <;> simp_all [list_tables, h, h2, listErrLines]

/-- From index 1 on, `printRows` prints no header and emits the rows
up to and including index 9, i.e. the first `10 - i` rows. -/
theorem printRows_pos (rows : List Row) :
    ∀ i, 1 ≤ i → i ≤ 9 → printRows i rows = (rows.take (10 - i)).map rowEv := by
  induction rows with
  | nil => intro i _ _; simp [printRows]
  | cons r rs ih =>
    intro i h1 h9
    by_cases h : 9 ≤ i
    · have hi : i = 9 := le_antisymm h9 h
      subst hi
      simp [printRows]
    · have h0 : ¬ i = 0 := by omega
      have h10 : 10 - i = (9 - i) + 1 := by omega
      have h9' : 10 - (i + 1) = 9 - i := by omega
      rw [h10]
      simp only [printRows, if_neg h0, if_neg h, List.take_succ_cons, List.map_cons,
        List.nil_append]
      rw [ih (i + 1) (by omega) (by omega), h9']

/-- At index 0, `printRows` prints the first row's column names as the
header, a separator, then the first 10 rows. -/
theorem printRows_zero (r : Row) (rs : List Row) :
    printRows 0 (r :: rs) =
      Ev.header (r.cols.map Prod.fst) :: Ev.sep :: ((r :: rs).take 10).map rowEv := by
  have h1 : printRows 1 rs = (rs.take 9).map rowEv := printRows_pos rs 1 (by omega) (by omega)
  simp [printRows, h1]

@[simp] theorem isHeader_msg (s : String) : (Ev.msg s).isHeader = false := rfl

@[simp] theorem isHeader_exec (s : String) : (Ev.queryExec s).isHeader = false := rfl

@[simp] theorem isHeader_header (cs : List String) : (Ev.header cs).isHeader = true := rfl

@[simp] theorem isHeader_sep : Ev.sep.isHeader = false := rfl

@[simp] theorem isHeader_rowOut (vs : List String) : (Ev.rowOut vs).isHeader = false := rfl

@[simp] theorem isRowOut_msg (s : String) : (Ev.msg s).isRowOut = false := rfl

@[simp] theorem isRowOut_exec (s : String) : (Ev.queryExec s).isRowOut = false := rfl

@[simp] theorem isRowOut_header (cs : List String) : (Ev.header cs).isRowOut = false := rfl

@[simp] theorem isRowOut_sep : Ev.sep.isRowOut = false := rfl

@[simp] theorem isRowOut_rowOut (vs : List String) : (Ev.rowOut vs).isRowOut = true := rfl

@[simp] theorem isSep_msg (s : String) : (Ev.msg s).isSep = false := rfl

@[simp] theorem isSep_exec (s : String) : (Ev.queryExec s).isSep = false := rfl

@[simp] theorem countP_isRowOut_map_rowEv (l : List Row) :
    (l.map rowEv).countP Ev.isRowOut = l.length := by
  induction l with
  | nil => rfl
  | cons r t ih => simp [List.countP_cons, rowEv, Ev.isRowOut, ih]

@[simp] theorem countP_isHeader_map_rowEv (l : List Row) :
    (l.map rowEv).countP Ev.isHeader = 0 := by
  induction l with
  | nil => rfl
  | cons r t ih => simp [List.countP_cons, rowEv, Ev.isHeader, ih]

/-- The loop part of `list_tables` finishes cleanly exactly when every
table's metadata fetch succeeds. -/
theorem listTablesLoop_none_iff (c : Client) (ts : List String) :
    (listTablesLoop c ts).2 = none ↔
      ∀ t ∈ ts, ∃ m, c.getTable (datasetId ++ "." ++ t) = Except.ok m := by
  induction ts with
  | nil => simp [listTablesLoop]
  | cons t ts ih =>
    cases h : c.getTable (datasetId ++ "." ++ t) with
    | error e => simp [listTablesLoop, h]
    | ok m => simp [listTablesLoop, h, ih]

/-- C1 (counterexample): on a client whose count query raises, only
the first of the three hardcoded queries is ever attempted — the
failure of the first query prevents the second and third from running,
contrary to the claim that no query failure prevents subsequent
queries. -/
theorem C1_counterexample :
    cAllFail.query countQuery = Except.error "boom"
  ∧ queriesOf (query_firebase_model cAllFail) = [countQuery]
  ∧ fieldNamesQuery ∉ queriesOf (query_firebase_model cAllFail)
  ∧ metadataQuery ∉ queriesOf (query_firebase_model cAllFail) := by
  refine ⟨rfl, ?_, ?_, ?_⟩ <;> simp [query_firebase_model, cAllFail] <;> decide

/-- C1 (amended): each diagnostic query failure is caught and its
message reported with an error marker, and failures of the second and
third queries do not prevent subsequent queries; however a failure of
the FIRST (row count) query returns early, so exactly the queries
prescribed by the first query's outcome are attempted: only the count
query when it fails, all three when it succeeds. -/
theorem C1_diagnostics_isolation (c : Client) :
    (queriesOf (query_firebase_model c) =
      match c.query countQuery with
      | Except.error _ => [countQuery]
      | Except.ok _ => [countQuery, fieldNamesQuery, metadataQuery])
  ∧ (∀ e, c.query countQuery = Except.error e →
      Ev.errMarker e ∈ query_firebase_model c)
  ∧ (∀ rows e, c.query countQuery = Except.ok rows →
      c.query fieldNamesQuery = Except.error e →
      Ev.errMarker e ∈ query_firebase_model c)
  ∧ (∀ rows e, c.query countQuery = Except.ok rows →
      c.query metadataQuery = Except.error e →
      Ev.errMarker e ∈ query_firebase_model c) := by
  refine ⟨qfm_queries c, ?_, ?_, ?_⟩
  · intro e h
    simp [query_firebase_model, h]
  · intro rows e h1 h2
    simp [query_firebase_model, h1, h2]
  · intro rows e h1 h3
    cases h2 : c.query fieldNamesQuery <;> simp [query_firebase_model, h1, h2, h3]

/-- C1 (witness): on a client whose count query succeeds and whose
field-names query raises, the raised message is reported. -/
theorem C1_witness :
    Ev.errMarker "later fail" ∈ query_firebase_model cCountOk :=
  (C1_diagnostics_isolation cCountOk).2.2.1 [] "later fail" (by rfl) (by rfl)

/-- C2 (counterexample): on a run whose connection succeeds but whose
table listing raises, `list_tables` reports failure (returns `False`)
and the process IS terminated by that failure: `main` exits with
status 1. -/
theorem C2_counterexample :
    (list_tables cAllFail).2 = false
  ∧ (mainRun ⟨Except.ok cAllFail, []⟩).2 = 1 := ⟨rfl, rfl⟩

/-- C2 (amended): when the listing fails, `list_tables` reports the
failure to its caller by returning `False` rather than raising, but the
caller (`main`) then terminates the process with exit status 1, so the
listing failure is fatal to the process. -/
theorem C2_listing_failure_fatal (c : Client) (inputs : List LoopInput)
    (h : (list_tables c).2 = false) :
    (mainRun ⟨Except.ok c, inputs⟩).2 = 1 := by
  simp [mainRun, h]

/-- C2 (witness): the amended statement at the all-failing client. -/
theorem C2_witness : (mainRun ⟨Except.ok cAllFail, []⟩).2 = 1 :=
  C2_listing_failure_fatal cAllFail [] rfl

/-- C3 (counterexample): on a run whose connection succeeds but whose
table listing fails, no query at all is attempted — the diagnostics are
NOT attempted when the listing fails, contrary to the claim. -/
theorem C3_counterexample :
    (list_tables cAllFail).2 = false
  ∧ queriesOf (mainRun ⟨Except.ok cAllFail, []⟩).1 = [] := by
  refine ⟨rfl, ?_⟩
  decide

/-- C3 (amended): after a successful connection the process attempts
the table listing first and then, ONLY when the listing succeeded, the
fixed diagnostics, in that order; when the listing fails the process
exits with status 1 and no query (diagnostic or interactive) is ever
attempted. -/
theorem C3_listing_then_diagnostics (c : Client) (inputs : List LoopInput) :
    ((list_tables c).2 = true →
      (mainRun ⟨Except.ok c, inputs⟩).1 =
        mainHeader ++ connOkEvs ++ (list_tables c).1 ++ query_firebase_model c
          ++ interactiveBanner ++ loop c inputs)
  ∧ ((list_tables c).2 = false →
      (mainRun ⟨Except.ok c, inputs⟩).1 = mainHeader ++ connOkEvs ++ (list_tables c).1
      ∧ queriesOf (mainRun ⟨Except.ok c, inputs⟩).1 = []
      ∧ (mainRun ⟨Except.ok c, inputs⟩).2 = 1) := by
  constructor
  · intro h
    simp [mainRun, h]
  · intro h
    refine ⟨by simp [mainRun, h], ?_, by simp [mainRun, h]⟩
    simp [mainRun, h, mainHeader, connOkEvs, queriesOf_list_tables]

/-- C3 (witness): the success branch of the amended statement at the
all-succeeding client. -/
theorem C3_witness :
    (mainRun ⟨Except.ok cAllOk, []⟩).1 =
      mainHeader ++ connOkEvs ++ (list_tables cAllOk).1 ++ query_firebase_model cAllOk
        ++ interactiveBanner ++ loop cAllOk [] :=
  (C3_listing_then_diagnostics cAllOk []).1 rfl

/-- C4 (confirmed): the process exits with status 1 exactly when the
initial connection fails or the table listing fails; otherwise it exits
with status 0; and each terminating loop input — a case-insensitive
quit token, end-of-input, or an interrupt at the loop — ends the loop
after the current prompt, so no further prompt is printed. -/
theorem C4_exit_behavior (w : World) :
    ((mainRun w).2 = 1 ↔
      (∃ e, w.connect = Except.error e)
      ∨ (∃ c, w.connect = Except.ok c ∧ (list_tables c).2 = false))
  ∧ ((mainRun w).2 = 1 ∨ (mainRun w).2 = 0)
  ∧ (∀ (c : Client) (s : String) (rest : List LoopInput),
      (pyLower (pyStrip s) = "quit" ∨ pyLower (pyStrip s) = "exit" ∨ pyLower (pyStrip s) = "q") →
      loop c (LoopInput.line s :: rest) = [Ev.prompt])
  ∧ (∀ (c : Client) (rest : List LoopInput),
      loop c (LoopInput.eof :: rest) = [Ev.prompt])
  ∧ (∀ (c : Client) (rest : List LoopInput),
      loop c (LoopInput.interrupt :: rest) = [Ev.prompt, Ev.msg "\n\nExiting..."]) := by
  refine ⟨?_, ?_, ?_, fun c rest => rfl, fun c rest => rfl⟩
  · cases hw : w.connect with
    | error e => simp [mainRun, hw]
    | ok c =>
      cases hlt : (list_tables c).2 <;> simp [mainRun, hw, hlt]
  · cases hw : w.connect with
    | error e => simp [mainRun, hw]
    | ok c =>
      cases hlt : (list_tables c).2 <;> simp [mainRun, hw, hlt]
  · intro c s rest h
    rcases h with h | h | h <;> simp [loop, isQuitToken, h]

/-- C4 (witness): a connection failure exits with status 1, and a
quit token (here with surrounding whitespace and mixed case) ends the
loop with only the current prompt printed. -/
theorem C4_witness :
    (mainRun ⟨Except.error "down", []⟩).2 = 1
  ∧ loop cAllOk [LoopInput.line " Quit ", LoopInput.line "more"] = [Ev.prompt] :=
  ⟨(C4_exit_behavior ⟨Except.error "down", []⟩).1.mpr (Or.inl ⟨"down", rfl⟩),
   (C4_exit_behavior ⟨Except.error "down", []⟩).2.2.1 cAllOk " Quit "
     [LoopInput.line "more"] (Or.inl (by decide))⟩

/-- C5 (confirmed): when an interactive query's result has more than
10 rows, `run_custom_query` prints the header exactly once, then
exactly 10 data rows — the first 10 rows of the result — and then
stops, whatever the total result size. -/
theorem C5_truncation (oracle : String → Except String (List Row)) (sql : String)
    (rows : List Row) (h : oracle sql = Except.ok rows) (h10 : 10 < rows.length) :
    ((run_custom_query oracle sql).countP Ev.isHeader = 1)
  ∧ ((run_custom_query oracle sql).countP Ev.isRowOut = 10)
  ∧ (∃ cols, run_custom_query oracle sql =
      customPreamble sql ++ Ev.queryExec sql :: Ev.header cols :: Ev.sep ::
        (rows.take 10).map rowEv) := by
  obtain ⟨r, rs, rfl⟩ : ∃ r rs, rows = r :: rs := by
    cases rows with
    | nil => simp at h10
    | cons a l => exact ⟨a, l, rfl⟩
  have hpr := printRows_zero r rs
  have hlen : ((r :: rs).take 10).length = 10 := by
    rw [List.length_take]
    omega
  have htrace : run_custom_query oracle sql =
      customPreamble sql ++ Ev.queryExec sql :: Ev.header (r.cols.map Prod.fst) :: Ev.sep ::
        ((r :: rs).take 10).map rowEv := by
    simp only [run_custom_query, h, hpr]
  refine ⟨?_, ?_, ⟨r.cols.map Prod.fst, htrace⟩⟩
  · rw [htrace]
    simp only [customPreamble, List.countP_append, List.countP_cons, isHeader_msg,
      isHeader_exec, isHeader_header, isHeader_sep, countP_isHeader_map_rowEv]
    simp
  · rw [htrace]
    simp only [customPreamble, List.countP_append, List.countP_cons, isRowOut_msg,
      isRowOut_exec, isRowOut_header, isRowOut_sep, countP_isRowOut_map_rowEv, hlen]
    simp

/-- C5 (witness): a result of 11 identical rows yields one header and
10 printed data rows. -/
theorem C5_witness :
    ((run_custom_query (fun _ => Except.ok (List.replicate 11 ⟨[("c", "v")]⟩)) "SELECT 1").countP
        Ev.isHeader = 1)
  ∧ ((run_custom_query (fun _ => Except.ok (List.replicate 11 ⟨[("c", "v")]⟩)) "SELECT 1").countP
        Ev.isRowOut = 10) :=
  ⟨(C5_truncation (fun _ => Except.ok (List.replicate 11 ⟨[("c", "v")]⟩)) "SELECT 1"
      (List.replicate 11 ⟨[("c", "v")]⟩) rfl (by decide)).1,
   (C5_truncation (fun _ => Except.ok (List.replicate 11 ⟨[("c", "v")]⟩)) "SELECT 1"
      (List.replicate 11 ⟨[("c", "v")]⟩) rfl (by decide)).2.1⟩

/-- C6 (counterexample): a malformed input line — one the client
rejects with an error, here the line "SELECT" — IS dispatched for
execution by the loop: a query-execution attempt for it appears in the
trace, contrary to the claim that malformed input lines do not execute
a query. -/
theorem C6_counterexample :
    cAllFail.query "SELECT" = Except.error "boom"
  ∧ Ev.queryExec "SELECT" ∈ loop cAllFail [LoopInput.line "SELECT", LoopInput.eof] := by
  refine ⟨rfl, ?_⟩
  decide

/-- C6 (amended): an input line that is empty after trimming
surrounding whitespace is a no-op: the loop executes no query and
returns to awaiting input; non-empty lines, malformed or not, are
dispatched for execution (their errors are caught, see C7). -/
theorem C6_empty_input_noop (c : Client) (s : String) (rest : List LoopInput)
    (h : pyStrip s = "") :
    loop c (LoopInput.line s :: rest) = Ev.prompt :: loop c rest
  ∧ queriesOf (loop c (LoopInput.line s :: rest)) = queriesOf (loop c rest) := by
  have hq : isQuitToken "" = false := by decide
  have he : loop c (LoopInput.line s :: rest) = Ev.prompt :: loop c rest := by
    simp [loop, h, hq]
  exact ⟨he, by rw [he]; simp⟩

/-- C6 (witness): a whitespace-only line is a no-op transition. -/
theorem C6_witness :
    loop cAllOk [LoopInput.line "   "] = Ev.prompt :: loop cAllOk [] :=
  (C6_empty_input_noop cAllOk "   " [] (by rfl)).1

/-- C7 (confirmed): when a custom interactive query raises, the loop
prints the error marker with the raised message, returns to the prompt
(the loop continues with the remaining input), and the process is not
terminated: a run reaching the loop still exits with status 0. -/
theorem C7_query_error_recovery (c : Client) (s e : String) (rest : List LoopInput)
    (hne : ¬ pyStrip s = "") (hq : isQuitToken (pyStrip s) = false)
    (herr : c.query (pyStrip s) = Except.error e) :
    (loop c (LoopInput.line s :: rest) =
      Ev.prompt :: (customPreamble (pyStrip s)
        ++ [Ev.queryExec (pyStrip s), Ev.errMarker e]) ++ loop c rest)
  ∧ (∀ inputs, (list_tables c).2 = true → (mainRun ⟨Except.ok c, inputs⟩).2 = 0) := by
  constructor
  · simp [loop, hq, hne, run_custom_query, herr]
  · intro inputs hlt
    simp [mainRun, hlt]

/-- C7 (witness): a failing query on a client with a successful (empty)
listing: the error is reported, the loop continues, and the process
exits 0. -/
theorem C7_witness :
    (loop cQFail [LoopInput.line "SELECT *"] =
      Ev.prompt :: (customPreamble (pyStrip "SELECT *")
        ++ [Ev.queryExec (pyStrip "SELECT *"), Ev.errMarker "bad sql"]) ++ loop cQFail [])
  ∧ (mainRun ⟨Except.ok cQFail, [LoopInput.line "SELECT *"]⟩).2 = 0 :=
  ⟨(C7_query_error_recovery cQFail "SELECT *" "bad sql" [] (by decide) (by decide) rfl).1,
   (C7_query_error_recovery cQFail "SELECT *" "bad sql" [] (by decide) (by decide) rfl).2
     [LoopInput.line "SELECT *"] rfl⟩

/-- C8 (confirmed): whenever the first query executes without raising,
`query_firebase_model` issues exactly the three hardcoded queries in
order — the row count, the distinct nested-field names limited to 20,
and the flattened 5-row sample with synthesized sub-field columns —
all phrased against the fixed fully-qualified table (the SQL texts are
the verbatim constants `countQuery`, `fieldNamesQuery`,
`metadataQuery`). -/
theorem C8_three_hardcoded_queries (c : Client) (rows : List Row)
    (h : c.query countQuery = Except.ok rows) :
    queriesOf (query_firebase_model c) = [countQuery, fieldNamesQuery, metadataQuery] := by
  have hq := qfm_queries c
  rw [h] at hq
  exact hq

/-- C8 (witness): the three queries on the all-succeeding client. -/
theorem C8_witness :
    queriesOf (query_firebase_model cAllOk) = [countQuery, fieldNamesQuery, metadataQuery] :=
  C8_three_hardcoded_queries cAllOk [] rfl

/-- C9 (confirmed): `list_tables` always returns a Boolean to its
caller (it propagates no exception): it returns `True` exactly when
the listing call and every per-table metadata fetch succeed, `False`
otherwise; a metadata failure at one table aborts the whole loop after
the partial output for that table (its name only), emitting nothing for
the remaining tables — there is no per-table error isolation. -/
theorem C9_list_tables_contract (c : Client) :
    ((list_tables c).2 = true ↔
      ∃ ts, c.listTablesRes = Except.ok ts ∧
        ∀ t ∈ ts, ∃ m, c.getTable (datasetId ++ "." ++ t) = Except.ok m)
  ∧ (∀ t rest e, c.getTable (datasetId ++ "." ++ t) = Except.error e →
      listTablesLoop c (t :: rest) = ([Ev.msg ("   " ++ t)], some e))
  ∧ (∀ e, c.listTablesRes = Except.error e →
      (list_tables c).1 =
        [Ev.msg "📋 Available tables:", Ev.msg dash60] ++ listErrLines e
      ∧ (list_tables c).2 = false) := by
  refine ⟨?_, ?_, ?_⟩
  · cases h : c.listTablesRes with
    | error e => simp [list_tables, h]
    | ok ts =>
      have hiff := listTablesLoop_none_iff c ts
      cases h2 : listTablesLoop c ts with
      | mk evs err =>
        rw [h2] at hiff
        cases err with
        | none => simpa [list_tables, h, h2] using hiff
        | some e => simpa [list_tables, h, h2] using hiff
  · intro t rest e he
    simp [listTablesLoop, he]
  · intro e he
    constructor <;> simp [list_tables, he]

/-- C9 (witness): a failing metadata fetch on the first of two tables
aborts the loop after that table's name, emitting nothing for the
second table. -/
theorem C9_witness :
    listTablesLoop cAllFail ["alpha", "beta"] = ([Ev.msg "   alpha"], some "no table") :=
  (C9_list_tables_contract cAllFail).2.1 "alpha" ["beta"] "no table" rfl

/-- C10 (confirmed): an interactive query whose result is empty prints
no header, no separator line and no data row: the whole output is the
preamble and the execution attempt. -/
theorem C10_empty_result (oracle : String → Except String (List Row)) (sql : String)
    (h : oracle sql = Except.ok []) :
    run_custom_query oracle sql = customPreamble sql ++ [Ev.queryExec sql]
  ∧ (run_custom_query oracle sql).countP Ev.isHeader = 0
  ∧ (run_custom_query oracle sql).countP Ev.isSep = 0
  ∧ (run_custom_query oracle sql).countP Ev.isRowOut = 0 := by
  have htrace : run_custom_query oracle sql = customPreamble sql ++ [Ev.queryExec sql] := by
    simp [run_custom_query, h, printRows]
  refine ⟨htrace, ?_, ?_, ?_⟩ <;> rw [htrace] <;>
    simp [customPreamble, List.countP_cons, List.countP_append]

/-- C10 (witness): the empty-result behaviour on the all-succeeding
client (whose every query returns zero rows). -/
theorem C10_witness :
    run_custom_query cAllOk.query "SELECT 1" =
      customPreamble "SELECT 1" ++ [Ev.queryExec "SELECT 1"] :=
  (C10_empty_result cAllOk.query "SELECT 1" rfl).1

end Slatr
